import Mathlib

/-!
Verification of the file-search-store front end's API adapter, response
normalization, and delete flows, against a shallow embedding of the
TypeScript source (src/services/api.ts, the later adapter variant, and
src/components/FileStores.tsx / Documents).

JSON values are modelled by an inductive `Json`; JavaScript objects are
association lists of string keys.  JavaScript `undefined`-valued
properties are modelled as absent keys (for parsed-JSON inputs the two
are observationally equal under the operations the adapter performs:
truthiness tests, `||` chains, and property reads).  Property access on
`null` (a TypeError in JavaScript) is modelled by `Option`, with `none`
standing for a thrown exception.
-/

/-- JSON value, as produced by parsing a webhook response body.  Numbers are
modelled as integers (no claim depends on non-integral numerics). -/
inductive Json where
  | str (s : String)
  | num (n : Int)
  | bool (b : Bool)
  | null
  | arr (elems : List Json)
  | obj (fields : List (String × Json))

/-- JavaScript truthiness of a defined value: `""`, `0`, `false`, `null`
are falsy; every object and array (even empty) is truthy. -/
def truthy : Json → Bool
  | .str s => s ≠ ""
  | .num n => n ≠ 0
  | .bool b => b
  | .null => false
  | .arr _ => true
  | .obj _ => true

/-- The fields of a value viewed as an object.  Non-objects have no own
string-keyed fields relevant to the adapter (string indexing of primitives
is not used by the source). -/
def fieldsOf : Json → List (String × Json)
  | .obj fs => fs
  | _ => []

/-- First binding of a key in an object's field list (JavaScript property
lookup; `none` models `undefined`). -/
def getField : List (String × Json) → String → Option Json
  | [], _ => none
  | (k, v) :: rest, key => if k = key then some v else getField rest key

/-- Property read defaulting `undefined` to `Json.null` (both are falsy, so
`||` chains are unaffected). -/
def getJD (fs : List (String × Json)) (key : String) : Json :=
  (getField fs key).getD Json.null

/-- JavaScript `a || b` on defined values. -/
def jsOr (a b : Json) : Json :=
  if truthy a then a else b

/-- JavaScript `a || b` where either side may be `undefined` (`none`). -/
def jsOrOpt (a b : Option Json) : Option Json :=
  match a with
  | some v => if truthy v then some v else b
  | none => b

/-- Property assignment in an object literal: overwrite the first binding of
the key in place, else append (JavaScript objects keep insertion order and
later literal entries overwrite earlier ones). -/
def setKey : List (String × Json) → String → Json → List (String × Json)
  | [], key, v => [(key, v)]
  | (k, w) :: rest, key, v =>
      if k = key then (key, v) :: rest else (k, w) :: setKey rest key v

/-- Property assignment whose right-hand side may be `undefined`; an
`undefined` assignment is modelled as a no-op (absent key). -/
def setKeyOpt (fs : List (String × Json)) (key : String) : Option Json → List (String × Json)
  | some v => setKey fs key v
  | none => fs

/-- Escape of a character list for JSON serialization (quote and
backslash; the adapter's inputs contain no control characters, which
`JSON.stringify` would additionally escape). -/
def escapeChars : List Char → String
  | [] => ""
  | c :: cs =>
      (if c = '"' then "\\\"" else if c = '\\' then "\\\\" else String.singleton c)
        ++ escapeChars cs

/-- Escape of a string for JSON serialization. -/
def escapeJson (s : String) : String :=
  escapeChars s.data

/-- The character set stripped by JavaScript `String.prototype.trim`
(ECMA-262 WhiteSpace ∪ LineTerminator): TAB, LF, VT, FF, CR, SP, NBSP,
the Unicode space separators (U+1680, U+2000..U+200A, U+202F, U+205F,
U+3000), the line/paragraph separators (U+2028, U+2029), and ZWNBSP
(U+FEFF). -/
def isJsWhitespace (c : Char) : Bool :=
  c.toNat = 0x09 || c.toNat = 0x0A || c.toNat = 0x0B || c.toNat = 0x0C ||
  c.toNat = 0x0D || c.toNat = 0x20 || c.toNat = 0xA0 || c.toNat = 0x1680 ||
  (0x2000 ≤ c.toNat && c.toNat ≤ 0x200A) || c.toNat = 0x2028 || c.toNat = 0x2029 ||
  c.toNat = 0x202F || c.toNat = 0x205F || c.toNat = 0x3000 || c.toNat = 0xFEFF

/-- JavaScript `String.prototype.trim`: drop the JS whitespace set from
both ends. -/
def jsTrim (s : String) : String :=
  String.mk (((s.data.dropWhile isJsWhitespace).reverse.dropWhile isJsWhitespace).reverse)

mutual

/-- `JSON.stringify` on the modelled values. -/
def Json.stringify : Json → String
  | .str s => "\"" ++ escapeJson s ++ "\""
  | .num n => toString n
  | .bool b => if b then "true" else "false"
  | .null => "null"
  | .arr xs => "[" ++ Json.stringifyList xs ++ "]"
  | .obj fs => "\x7b" ++ Json.stringifyFields fs ++ "\x7d"

/-- Comma-separated serialization of array elements. -/
def Json.stringifyList : List Json → String
  | [] => ""
  | [x] => Json.stringify x
  | x :: y :: xs => Json.stringify x ++ "," ++ Json.stringifyList (y :: xs)

/-- Comma-separated serialization of object fields. -/
def Json.stringifyFields : List (String × Json) → String
  | [] => ""
  | [(k, v)] => "\"" ++ escapeJson k ++ "\":" ++ Json.stringify v
  | (k, v) :: g :: fs =>
      "\"" ++ escapeJson k ++ "\":" ++ Json.stringify v ++ "," ++ Json.stringifyFields (g :: fs)

end

/-- Shape (1)/(2) per-store mapping of `listStores`: the object literal
with entries `id: store.name`, `name: store.displayName || store.name`,
`createdAt: store.createTime`, followed by the spread `...store`.  Because
the spread comes last, the raw store's own fields overwrite the three
explicit entries.  `none` models the TypeError thrown when `store` is
`null`. -/
def normStoreWrapped : Json → Option Json
  | Json.null => none
  | store =>
      let f := fieldsOf store
      let base := setKeyOpt [] "id" (getField f "name")
      let base := setKeyOpt base "name" (jsOrOpt (getField f "displayName") (getField f "name"))
      let base := setKeyOpt base "createdAt" (getField f "createTime")
      some (Json.obj (f.foldl (fun acc kv => setKey acc kv.1 kv.2) base))

/-- Shape (3) per-item mapping of `listStores`: spread `...item` first, then
`id: item.id || item.name || tok`, `name: item.displayName || item.name ||
'Untitled Store'`, `createdAt: item.createTime || item.createdAt`.  `tok`
stands for the value of `Math.random().toString(36).substring(7)`, which
the source computes freshly per item; note `substring(7)` yields the empty
string when the random draw has a short base-36 form (for example
`(0).toString(36) = "0"` and `(0.5).toString(36) = "0.i"`). -/
def normStoreFlat (item : Json) (tok : String) : Option Json :=
  match item with
  | Json.null => none
  | _ =>
      let f := fieldsOf item
      let r := setKeyOpt f "id"
        (jsOrOpt (getField f "id") (jsOrOpt (getField f "name") (some (Json.str tok))))
      let r := setKeyOpt r "name"
        (jsOrOpt (getField f "displayName")
          (jsOrOpt (getField f "name") (some (Json.str "Untitled Store"))))
      let r := setKeyOpt r "createdAt"
        (jsOrOpt (getField f "createTime") (getField f "createdAt"))
      some (Json.obj r)

/-- Map of `normStoreFlat` over the items, drawing a fresh fallback token
for each index; `none` propagates a thrown TypeError. -/
def mapNormFlat (tok : Nat → String) : Nat → List Json → Option (List Json)
  | _, [] => some []
  | i, x :: xs =>
      match normStoreFlat x (tok i), mapNormFlat tok (i + 1) xs with
      | some y, some ys => some (y :: ys)
      | _, _ => none

/-- Shape (3) of `listStores`: `Array.isArray(data) ? data : (data.data || [])`,
then the per-item normalization; mapping over a non-array value throws. -/
def listStoresShape3 (data : Json) (tok : Nat → String) : Option (List Json) :=
  let items := match data with
    | Json.arr _ => data
    | _ => jsOr (getJD (fieldsOf data) "data") (Json.arr [])
  match items with
  | Json.arr xs => mapNormFlat tok 0 xs
  | _ => none

/-- Normalization step of `listStores`, trying the three response shapes in
source order: (1) an object with a `fileSearchStores` array; (2) a
non-empty array whose first element has a truthy `fileSearchStores` field
(mapping over it throws if it is not an array); (3) a bare array or an
object with a generic `data` array. -/
def listStoresNormalize (data : Json) (tok : Nat → String) : Option (List Json) :=
  match data with
  | Json.null => none
  | _ =>
    match getField (fieldsOf data) "fileSearchStores" with
    | some (Json.arr stores) => stores.mapM normStoreWrapped
    | _ =>
      match data with
      | Json.arr (first :: _) =>
          (match first with
           | Json.null => none
           | _ =>
             match getField (fieldsOf first) "fileSearchStores" with
             | some fss =>
                 if truthy fss then
                   match fss with
                   | Json.arr stores => stores.mapM normStoreWrapped
                   | _ => none
                 else listStoresShape3 data tok
             | none => listStoresShape3 data tok)
      | _ => listStoresShape3 data tok

/-- The `find` callback of `listDocuments`, the strict-equality test
`m.key === 'nombreFile'`: reading `m.key` on a `null` entry throws a
TypeError (`none`); on any other non-object it reads `undefined`, which
fails the strict equality. -/
def isNombreEntry : Json → Option Bool
  | Json.null => none
  | m =>
      some (match getField (fieldsOf m) "key" with
        | some (Json.str k) => k == "nombreFile"
        | _ => false)

/-- `Array.prototype.find` with the `isNombreEntry` callback: entries are
visited in order until the callback returns true, so a `null` entry
reached before the first match propagates the callback's TypeError
(`none`); `some none` is not-found, `some (some m)` the first match. -/
def findNombre : List Json → Option (Option Json)
  | [] => some none
  | m :: rest =>
      match isNombreEntry m with
      | none => none
      | some true => some (some m)
      | some false => findNombre rest

/-- Custom display name drawn from a document's metadata in `listDocuments`:
the `stringValue` of the first `customMetadata` entry whose `key` strictly
equals `"nombreFile"`, kept only when truthy; otherwise the empty string
(the source's `let customName = ''`).  `none` propagates the TypeError
thrown by the `find` callback on a `null` metadata entry. -/
def customNameJ (f : List (String × Json)) : Option Json :=
  match getField f "customMetadata" with
  | some (Json.arr ms) =>
      match findNombre ms with
      | none => none
      | some (some nameField) =>
          match getField (fieldsOf nameField) "stringValue" with
          | some v => some (if truthy v then v else Json.str "")
          | none => some (Json.str "")
      | some none => some (Json.str "")
  | _ => some (Json.str "")

/-- Name resolution of `listDocuments`:
`customName || doc.displayName || doc.name || 'Untitled Document'`;
`none` propagates a thrown TypeError from the metadata lookup. -/
def docNameJ (f : List (String × Json)) : Option Json :=
  (customNameJ f).map fun cn =>
    jsOr cn (jsOr (getJD f "displayName") (jsOr (getJD f "name") (Json.str "Untitled Document")))

/-- Per-document mapping of `listDocuments`: spread `...doc` first, then
`id: doc.id || doc.name`, the name resolution, `size: doc.sizeBytes ||
doc.size`, and `mimeType: doc.mimeType`.  `none` models the TypeError
thrown when `doc` is `null` or when the metadata lookup throws on a
`null` metadata entry. -/
def normalizeDoc : Json → Option Json
  | Json.null => none
  | doc =>
      let f := fieldsOf doc
      match docNameJ f with
      | none => none
      | some nm =>
          let r := setKeyOpt f "id" (jsOrOpt (getField f "id") (getField f "name"))
          let r := setKey r "name" nm
          let r := setKeyOpt r "size" (jsOrOpt (getField f "sizeBytes") (getField f "size"))
          let r := setKeyOpt r "mimeType" (getField f "mimeType")
          some (Json.obj r)

/-- Normalization step of `listDocuments`:
`Array.isArray(data) ? data : (data.documents || data.data || [])`, then the
per-document mapping; mapping over a non-array value throws. -/
def listDocumentsNormalize (data : Json) : Option (List Json) :=
  match data with
  | Json.null => none
  | _ =>
    let rawDocs := match data with
      | Json.arr _ => data
      | _ => jsOr (getJD (fieldsOf data) "documents")
          (jsOr (getJD (fieldsOf data) "data") (Json.arr []))
    match rawDocs with
    | Json.arr xs => xs.mapM normalizeDoc
    | _ => none

/-- The `content` of `chatWithStore`: `Array.isArray(data) ? data[0] : data`;
`none` models the out-of-range read `data[0]` of an empty array
(`undefined`, whose subsequent property read throws). -/
def chatContent : Json → Option Json
  | Json.arr xs => xs.head?
  | d => some d

/-- The answer expression of `chatWithStore` on a defined, non-null
content: `content.output || content.text || content.answer ||
content.message || JSON.stringify(content)`. -/
def chatAnswerOf (c : Json) : Json :=
  jsOr (getJD (fieldsOf c) "output")
    (jsOr (getJD (fieldsOf c) "text")
      (jsOr (getJD (fieldsOf c) "answer")
        (jsOr (getJD (fieldsOf c) "message") (Json.str (Json.stringify c)))))

/-- Answer extraction of `chatWithStore`.  `none` models the TypeError
thrown when `content` is `undefined` or `null`. -/
def chatExtract (data : Json) : Option Json :=
  match chatContent data with
  | none => none
  | some Json.null => none
  | some c => some (chatAnswerOf c)

/-- Error taxonomy of the adapter, one constructor per failure kind the
source distinguishes: a refused call on a missing endpoint, the
re-classified network/CORS failure of `listStores`, an unhandled thrown
exception (fetch rejection or TypeError in an operation without a
`catch`), a non-2xx HTTP status, and an unparseable non-empty body. -/
inductive ApiError where
  | configMissing (msg : String)
  | network (msg : String)
  | thrown
  | http (status : Nat) (statusText : String) (body : String)
  | parseError (snippet : String)

/-- The adapter's `safeJsonParse` helper: an empty or whitespace-only body
yields `\x7b\x7d`; otherwise `JSON.parse` (abstracted as the `parseJson`
argument, `none` meaning a parse failure) is attempted, a failure being
reported as the distinct parse-error kind carrying the first 100
characters of the body. -/
def safeJsonParse (parseJson : String → Option Json) (text : String) : Except ApiError Json :=
  if text = "" ∨ jsTrim text = "" then Except.ok (Json.obj [])
  else
    match parseJson text with
    | some j => Except.ok j
    | none => Except.error (ApiError.parseError (text.take 100))

/-- The configuration value object: seven endpoint URLs, each possibly
empty (src/types.ts `AppConfig`). -/
structure AppConfig where
  listStoresUrl : String
  createStoreUrl : String
  deleteStoreUrl : String
  listDocsUrl : String
  uploadDocUrl : String
  deleteDocUrl : String
  chatDocUrl : String
deriving DecidableEq

/-- Body of an HTTP exchange issued by the adapter. -/
inductive Payload where
  | empty
  | jsonBody (body : Json)
  | multipart (fileName : String) (storeName : String)

/-- One HTTP request as shaped by an adapter operation. -/
structure Request where
  url : String
  method : String
  payload : Payload

/-- Environment's answer to a `fetch` call: a rejection of the promise
(network/CORS failure) or a settled response. -/
inductive FetchOutcome where
  | reject
  | response (ok : Bool) (status : Nat) (statusText : String) (body : String)

/-- `apiService.listStores`: with no configured endpoint it resolves to an
empty list without fetching; otherwise one GET request, non-2xx mapped to
an HTTP error, the body parsed through `safeJsonParse`, a promise
rejection re-classified as the network/CORS error kind, and a thrown
normalization TypeError propagating unhandled.  The second component is
the list of requests issued. -/
def listStoresOp (cfg : AppConfig) (fetch : Request → FetchOutcome)
    (parseJson : String → Option Json) (tok : Nat → String) :
    Except ApiError (List Json) × List Request :=
  if cfg.listStoresUrl = "" then (Except.ok [], [])
  else
    let req : Request := ⟨cfg.listStoresUrl, "GET", Payload.empty⟩
    match fetch req with
    | FetchOutcome.reject =>
        (Except.error (ApiError.network
          "Network error: Unable to connect. Please check CORS settings on your webhook."), [req])
    | FetchOutcome.response ok status statusText body =>
        if ok then
          match safeJsonParse parseJson body with
          | Except.error e => (Except.error e, [req])
          | Except.ok data =>
              match listStoresNormalize data tok with
              | some stores => (Except.ok stores, [req])
              | none => (Except.error ApiError.thrown, [req])
        else (Except.error (ApiError.http status statusText ""), [req])

/-- `apiService.createStore`: posts `\x7b nameFileStore \x7d` to the
create endpoint unconditionally (no endpoint validation, no catch). -/
def createStoreOp (cfg : AppConfig) (name : String) (fetch : Request → FetchOutcome) :
    Except ApiError Unit × List Request :=
  let req : Request :=
    ⟨cfg.createStoreUrl, "POST", Payload.jsonBody (Json.obj [("nameFileStore", Json.str name)])⟩
  match fetch req with
  | FetchOutcome.reject => (Except.error ApiError.thrown, [req])
  | FetchOutcome.response ok status statusText _ =>
      if ok then (Except.ok (), [req])
      else (Except.error (ApiError.http status statusText ""), [req])

/-- `apiService.deleteStore`: posts `\x7b name \x7d` to the delete endpoint
unconditionally; the response text is read and included in the HTTP
error. -/
def deleteStoreOp (cfg : AppConfig) (id : String) (fetch : Request → FetchOutcome) :
    Except ApiError Unit × List Request :=
  let req : Request :=
    ⟨cfg.deleteStoreUrl, "POST", Payload.jsonBody (Json.obj [("name", Json.str id)])⟩
  match fetch req with
  | FetchOutcome.reject => (Except.error ApiError.thrown, [req])
  | FetchOutcome.response ok status statusText body =>
      if ok then (Except.ok (), [req])
      else (Except.error (ApiError.http status statusText body), [req])

/-- `apiService.listDocuments`: refuses with a configuration error before
any request when the endpoint is empty; otherwise posts `\x7b name \x7d`
and normalizes the parsed body. -/
def listDocumentsOp (cfg : AppConfig) (storeId : String) (fetch : Request → FetchOutcome)
    (parseJson : String → Option Json) : Except ApiError (List Json) × List Request :=
  if cfg.listDocsUrl = "" then
    (Except.error (ApiError.configMissing "List Documents URL is not configured"), [])
  else
    let req : Request :=
      ⟨cfg.listDocsUrl, "POST", Payload.jsonBody (Json.obj [("name", Json.str storeId)])⟩
    match fetch req with
    | FetchOutcome.reject => (Except.error ApiError.thrown, [req])
    | FetchOutcome.response ok status statusText body =>
        if ok then
          match safeJsonParse parseJson body with
          | Except.error e => (Except.error e, [req])
          | Except.ok data =>
              match listDocumentsNormalize data with
              | some docs => (Except.ok docs, [req])
              | none => (Except.error ApiError.thrown, [req])
        else (Except.error (ApiError.http status statusText ""), [req])

/-- `apiService.uploadDocument`: multipart submission of the file, its
name, and the store identifier, issued unconditionally. -/
def uploadDocumentOp (cfg : AppConfig) (storeId fileName : String)
    (fetch : Request → FetchOutcome) : Except ApiError Unit × List Request :=
  let req : Request := ⟨cfg.uploadDocUrl, "POST", Payload.multipart fileName storeId⟩
  match fetch req with
  | FetchOutcome.reject => (Except.error ApiError.thrown, [req])
  | FetchOutcome.response ok status statusText _ =>
      if ok then (Except.ok (), [req])
      else (Except.error (ApiError.http status statusText ""), [req])

/-- `apiService.deleteDocument`: posts `\x7b name \x7d` with the document
identifier, issued unconditionally. -/
def deleteDocumentOp (cfg : AppConfig) (docId : String) (fetch : Request → FetchOutcome) :
    Except ApiError Unit × List Request :=
  let req : Request :=
    ⟨cfg.deleteDocUrl, "POST", Payload.jsonBody (Json.obj [("name", Json.str docId)])⟩
  match fetch req with
  | FetchOutcome.reject => (Except.error ApiError.thrown, [req])
  | FetchOutcome.response ok status statusText _ =>
      if ok then (Except.ok (), [req])
      else (Except.error (ApiError.http status statusText ""), [req])

/-- `apiService.chatWithStore`: refuses with a configuration error before
any request when the chat endpoint is empty; otherwise posts the store
name, question and mapped history, and extracts the answer from the
parsed body. -/
def chatWithStoreOp (cfg : AppConfig) (storeId question : String)
    (history : List (String × String)) (fetch : Request → FetchOutcome)
    (parseJson : String → Option Json) : Except ApiError Json × List Request :=
  if cfg.chatDocUrl = "" then
    (Except.error (ApiError.configMissing "Chat URL is not configured"), [])
  else
    let req : Request := ⟨cfg.chatDocUrl, "POST", Payload.jsonBody (Json.obj
      [("storeName", Json.str storeId), ("question", Json.str question),
       ("chatHistory", Json.arr (history.map fun rc =>
         Json.obj [("role", Json.str rc.1), ("content", Json.str rc.2)]))])⟩
    match fetch req with
    | FetchOutcome.reject => (Except.error ApiError.thrown, [req])
    | FetchOutcome.response ok status statusText body =>
        if ok then
          match safeJsonParse parseJson body with
          | Except.error e => (Except.error e, [req])
          | Except.ok data =>
              match chatExtract data with
              | some answer => (Except.ok answer, [req])
              | none => (Except.error ApiError.thrown, [req])
        else (Except.error (ApiError.http status statusText ""), [req])

/-- The normalized store record as held by the `FileStores` component:
`id`, `name`, and the raw `displayName` preserved by the spread (the only
fields its delete flow reads). -/
structure StoreRec where
  id : String
  name : String
  displayName : Option String
deriving DecidableEq

/-- The component's `getDisplayName`: `store.displayName || store.name`. -/
def getDisplayName (s : StoreRec) : String :=
  match s.displayName with
  | some d => if d = "" then s.name else d
  | none => s.name

/-- View state of the `FileStores` component that the store-deletion flow
reads and writes: the store list, the delete-modal state (`storeToDelete`,
confirmation text, `isDeleting`, `isCheckingDocs`, `docCount` with `none`
for unchecked and `some (-1)` for a failed check), and a counter of
delete-store requests issued. -/
structure DelState where
  stores : List StoreRec
  storeToDelete : Option StoreRec
  deleteConfirmationText : String
  isDeleting : Bool
  isCheckingDocs : Bool
  docCount : Option Int
  deleteRequests : Nat
deriving DecidableEq

/-- Initial state of the flow for a loaded store list. -/
def initDelState (stores : List StoreRec) : DelState :=
  ⟨stores, none, "", false, false, none, 0⟩

/-- User/async events of the store-deletion flow: `beginOpen` is the
synchronous part of `openDeleteModal`; `resolveCheck` its awaited
document-count check settling (`Except.ok` with the fetched count, or
`Except.error` on failure); `setText` the confirmation input;
`clickDelete` the Delete button with the remote call's outcome;
`closeModal` the close action. -/
inductive DelEvent where
  | beginOpen (store : StoreRec)
  | resolveCheck (result : Except Unit Nat)
  | setText (s : String)
  | clickDelete (remoteOk : Bool)
  | closeModal

/-- Whether the Delete Permanently button is both rendered and enabled:
the modal is open, the count check is not running, the modal body is in
its confirmation branch (`docCount !== -1` and not
`docCount && docCount > 0`), the typed text equals the store's display
name, and no deletion is in flight. -/
def canClickDelete (s : DelState) : Bool :=
  match s.storeToDelete with
  | none => false
  | some st =>
      !s.isCheckingDocs &&
      !(s.docCount == some (-1)) &&
      !(match s.docCount with
        | some n => decide (n ≠ 0) && decide (n > 0)
        | none => false) &&
      s.deleteConfirmationText == getDisplayName st &&
      !s.isDeleting

/-- One step of the store-deletion flow, following `openDeleteModal`,
`confirmDelete` and `closeDeleteModal`: a confirmed click issues the
delete-store request, and only on success filters the store out of the
list and closes the modal. -/
def stepDel (s : DelState) : DelEvent → DelState
  | DelEvent.beginOpen st =>
      { s with storeToDelete := some st, deleteConfirmationText := "",
               docCount := none, isCheckingDocs := true }
  | DelEvent.resolveCheck r =>
      { s with docCount := some (match r with
                 | Except.ok n => (n : Int)
                 | Except.error _ => -1),
               isCheckingDocs := false }
  | DelEvent.setText t => { s with deleteConfirmationText := t }
  | DelEvent.clickDelete remoteOk =>
      if canClickDelete s then
        match s.storeToDelete with
        | some st =>
            if remoteOk then
              { s with stores := s.stores.filter (fun x => x.id ≠ st.id),
                       storeToDelete := none, deleteConfirmationText := "",
                       isDeleting := false, docCount := none,
                       deleteRequests := s.deleteRequests + 1 }
            else
              { s with isDeleting := false, deleteRequests := s.deleteRequests + 1 }
        | none => s
      else s
  | DelEvent.closeModal =>
      { s with storeToDelete := none, deleteConfirmationText := "",
               isDeleting := false, docCount := none }

/-- A run of the store-deletion flow from a loaded store list. -/
def runDel (stores : List StoreRec) (evs : List DelEvent) : DelState :=
  evs.foldl stepDel (initDelState stores)

/-- The normalized document record as held by the `Documents` component
(only `id` is read by its delete flow; `name` is displayed). -/
structure DocRec where
  id : String
  name : String
deriving DecidableEq

/-- Result of the `Documents` component's `confirmDelete`: the document
list afterwards and whether the failure alert was shown. -/
structure DocDeleteResult where
  docs : List DocRec
  errorAlert : Bool
deriving DecidableEq

/-- The `Documents` component's `confirmDelete`: guard on a selected
document, snapshot the list, optimistically remove the target, issue the
remote delete, and on failure restore the snapshot and alert. -/
def confirmDocDelete (docs : List DocRec) (docToDelete : Option DocRec)
    (remoteOk : Bool) : DocDeleteResult :=
  match docToDelete with
  | none => ⟨docs, false⟩
  | some d =>
      let prevDocs := docs
      let optimistic := docs.filter (fun x => x.id ≠ d.id)
      if remoteOk then ⟨optimistic, false⟩ else ⟨prevDocs, true⟩

/-- String content of a record field, for stating properties of normalized
records (`none` when the field is absent or not a string). -/
def strField (r : Json) (key : String) : Option String :=
  match getField (fieldsOf r) key with
  | some (Json.str s) => some s
  | _ => none

/-- String content of an extraction result. -/
def asStringOpt (o : Option Json) : Option String :=
  o.bind fun j =>
    match j with
    | Json.str s => some s
    | _ => none

/-- A configuration with every endpoint left empty. -/
def emptyConfig : AppConfig := ⟨"", "", "", "", "", "", ""⟩

/-- The raw store of the spec's own scenario: both a resource `name` and a
`displayName`. -/
def c1FailingStore : Json :=
  Json.obj [("name", Json.str "fileSearchStores/abc"), ("displayName", Json.str "Marketing")]

/-- A shape (1) store-listing response around `c1FailingStore`. -/
def c1FailingResponse : Json :=
  Json.obj [("fileSearchStores", Json.arr [c1FailingStore])]

/-- The spec's chat scenario response `[ \x7b output: "Answer text" \x7d ]`. -/
def c5ScenarioResponse : Json :=
  Json.arr [Json.obj [("output", Json.str "Answer text")]]

/-- The content (first element) of `c5ScenarioResponse`. -/
def c5ScenarioContent : Json :=
  Json.obj [("output", Json.str "Answer text")]

/-- A raw document carrying a `nombreFile` metadata entry and a competing
`displayName`. -/
def c2WitnessDoc : List (String × Json) :=
  [("name", Json.str "files/doc1"), ("displayName", Json.str "ignored.pdf"),
   ("customMetadata", Json.arr
     [Json.obj [("key", Json.str "nombreFile"), ("stringValue", Json.str "Informe.pdf")]])]

/-- Invariant of the store-deletion flow: `docCount` only ever holds
`null`, the error sentinel `-1`, or a fetched natural count; and whenever
the modal is open with the check settled, `docCount` is no longer
`null`. -/
def delCountInv (s : DelState) : Prop :=
  (s.docCount = none ∨ s.docCount = some (-1) ∨ ∃ k : Nat, s.docCount = some (k : Int)) ∧
  (s.storeToDelete.isSome = true → s.isCheckingDocs = false → s.docCount ≠ none)

/-- A store fixture for concrete runs of the deletion flow. -/
def c3WitnessStore : StoreRec := ⟨"fileSearchStores/abc", "Marketing", none⟩

/-- Open the modal on the fixture store, have the count check settle at 0,
and type the exact display name. -/
def c3WitnessEvents : List DelEvent :=
  [DelEvent.beginOpen c3WitnessStore, DelEvent.resolveCheck (Except.ok 0),
   DelEvent.setText "Marketing"]

/-- A flow state with the modal open on the fixture store, count checked
at 0, and the display name typed. -/
def c10WitnessState : DelState :=
  ⟨[c3WitnessStore], some c3WitnessStore, "Marketing", false, false, some 0, 0⟩

/-- Helper lemmas about object-literal construction. -/
theorem getField_setKey_self (fs : List (String × Json)) (key : String) (v : Json) :
    getField (setKey fs key v) key = some v := by
  induction fs with
  | nil => simp [setKey, getField]
  | cons kv rest ih =>
      by_cases h : kv.1 = key
      · simp [setKey, h, getField]
      · simp [setKey, h, getField, ih]

theorem getField_setKey_other (fs : List (String × Json)) (key other : String) (v : Json)
    (h : other ≠ key) : getField (setKey fs key v) other = getField fs other := by
  induction fs with
  | nil => simp [setKey, getField, h, Ne.symm h]
  | cons kv rest ih =>
      by_cases hk : kv.1 = key
      · simp [setKey, hk, getField, h, Ne.symm h]
      · by_cases ho : kv.1 = other
        · simp [setKey, hk, getField, ho, h]
        · simp [setKey, hk, getField, ho, ih]

theorem getField_setKeyOpt_other (fs : List (String × Json)) (key other : String)
    (o : Option Json) (h : other ≠ key) :
    getField (setKeyOpt fs key o) other = getField fs other := by
  cases o with
  | none => rfl
  | some v => exact getField_setKey_other fs key other v h

/-- Claim C4: for every document list and every selected document, if the
remote delete fails, the list afterwards is exactly the ordered
pre-deletion list (the optimistic removal is rolled back to the snapshot)
and the error alert is surfaced. -/
theorem c4_doc_delete_rollback (docs : List DocRec) (d : DocRec) :
    (confirmDocDelete docs (some d) false).docs = docs ∧
    (confirmDocDelete docs (some d) false).errorAlert = true := by
  simp [confirmDocDelete]

/-- Claim C7: for every configuration whose list-stores endpoint is empty,
`listStores` resolves to an empty collection, issues no HTTP request, and
raises no error. -/
theorem c7_list_stores_empty_endpoint (cfg : AppConfig) (fetch : Request → FetchOutcome)
    (parseJson : String → Option Json) (tok : Nat → String)
    (h : cfg.listStoresUrl = "") :
    listStoresOp cfg fetch parseJson tok = (Except.ok [], []) := by
  simp [listStoresOp, h]

theorem c7_list_stores_empty_endpoint_witness :
    emptyConfig.listStoresUrl = "" ∧
    listStoresOp emptyConfig (fun _ => FetchOutcome.reject) (fun _ => none) (fun _ => "")
      = (Except.ok [], []) :=
  ⟨rfl, c7_list_stores_empty_endpoint emptyConfig _ _ _ rfl⟩

/-- Claim C6: `safeJsonParse`, used by every body-parsing adapter
operation, normalizes an empty or whitespace-only body to the empty
object, and fails on an unparseable non-empty body with the distinct
parse-error kind (carrying the first 100 characters of the body). -/
theorem c6_safe_json_parse (parseJson : String → Option Json) (text : String) :
    (jsTrim text = "" → safeJsonParse parseJson text = Except.ok (Json.obj [])) ∧
    (jsTrim text ≠ "" → parseJson text = none →
      safeJsonParse parseJson text = Except.error (ApiError.parseError (text.take 100))) := by
  constructor
  · intro h
    simp [safeJsonParse, h]
  · intro h hp
    have hne : text ≠ "" := by
      intro he
      apply h
      rw [he]
      decide
    simp [safeJsonParse, h, hne, hp]

theorem c6_safe_json_parse_witness :
    (jsTrim "   " = "" ∧
      safeJsonParse (fun _ => none) "   " = Except.ok (Json.obj [])) ∧
    (jsTrim "not json" ≠ "" ∧
      safeJsonParse (fun _ => none) "not json"
        = Except.error (ApiError.parseError ("not json".take 100))) :=
  ⟨⟨by decide, (c6_safe_json_parse (fun _ => none) "   ").1 (by decide)⟩,
   ⟨by decide, (c6_safe_json_parse (fun _ => none) "not json").2 (by decide) rfl⟩⟩

/-- Claim C1, evaluated at the failing input (the spec's own scenario
`\x7b fileSearchStores: [\x7b name, displayName: "Marketing" \x7d] \x7d`):
because `...store` is spread after the explicit entries, the normalized
`name` equals the raw `name`, not the raw `displayName` — while `id` and
`createdAt` survive (the raw store has no fields of those names) and the
raw fields are preserved.  The claim (and the code's own dead expression
`name: store.displayName || store.name`) prescribes `name = "Marketing"`. -/
theorem c1_spread_overwrites_display_name :
    (listStoresNormalize c1FailingResponse (fun _ => "tok")).map
        (List.map (fun r => strField r "name"))
      = some [some "fileSearchStores/abc"] ∧
    (listStoresNormalize c1FailingResponse (fun _ => "tok")).map
        (List.map (fun r => (strField r "id", strField r "displayName")))
      = some [(some "fileSearchStores/abc", some "Marketing")] :=
  ⟨rfl, rfl⟩

/-- Claim C9, counterexample: the fallback token is
`Math.random().toString(36).substring(7)`, which is the empty string for
degenerate draws (`(0).toString(36) = "0"`, `(0.5).toString(36) = "0.i"`,
both shorter than 8 characters); with such a draw, a shape (3) item
missing both `id` and `name` is normalized to an EMPTY `id`, refuting the
claimed non-emptiness. -/
theorem c9_empty_token_counterexample :
    (normStoreFlat (Json.obj [("displayName", Json.str "X")]) "").map (fun r => strField r "id")
      = some (some "") := rfl

/-- Claim C9, amended: every shape (3) object item missing both `id` and
`name` is still normalized, without throwing, to a record whose `id` is
exactly the per-item fallback token — hence non-empty whenever the random
draw yields a non-empty token, which is not guaranteed. -/
theorem c9_fallback_id_is_token (fs : List (String × Json)) (tok : String)
    (hid : getField fs "id" = none) (hname : getField fs "name" = none) :
    (normStoreFlat (Json.obj fs) tok).map (fun r => strField r "id") = some (some tok) := by
  simp only [normStoreFlat, fieldsOf, hid, hname, jsOrOpt, Option.map_some']
  simp only [strField, fieldsOf]
  rw [getField_setKeyOpt_other _ _ _ _ (by decide),
    getField_setKeyOpt_other _ _ _ _ (by decide)]
  simp only [setKeyOpt]
  rw [getField_setKey_self]

theorem c9_fallback_id_is_token_witness :
    getField [("displayName", Json.str "X")] "id" = none ∧
    getField [("displayName", Json.str "X")] "name" = none ∧
    (normStoreFlat (Json.obj [("displayName", Json.str "X")]) "r7q").map (fun r => strField r "id")
      = some (some "r7q") :=
  ⟨rfl, rfl, c9_fallback_id_is_token [("displayName", Json.str "X")] "r7q" rfl rfl⟩

theorem chatExtract_eq_answer (data c : Json) (hc : chatContent data = some c)
    (hnull : c ≠ Json.null) : chatExtract data = some (chatAnswerOf c) := by
  unfold chatExtract
  rw [hc]
  cases c <;> first | rfl | exact absurd rfl hnull

/-- Claim C5, counterexample: for the response `\x7b output: "" \x7d` the
field `output` is present, so the claimed extraction is its (empty) text;
the code instead falls through the `||` chain (the field is falsy) and
returns the JSON serialization of the whole object. -/
theorem c5_present_falsy_field_counterexample :
    asStringOpt (chatExtract (Json.obj [("output", Json.str "")])) ≠ some "" ∧
    chatExtract (Json.obj [("output", Json.str "")])
      = some (Json.str (Json.stringify (Json.obj [("output", Json.str "")]))) :=
  ⟨by decide, rfl⟩

/-- Claim C5, amended: for every successful chat response, the content is
the response itself when it is a bare (non-null) value and its first
element when it is an array; the answer is the first field among
`output`, `text`, `answer`, `message` whose value is present AND truthy
(non-empty), falling back to the JSON serialization of the whole content
when all four are absent or falsy. -/
theorem c5_chat_answer_extraction (data c : Json) (hc : chatContent data = some c)
    (hnull : c ≠ Json.null) :
    (truthy (getJD (fieldsOf c) "output") = true →
        chatExtract data = some (getJD (fieldsOf c) "output")) ∧
    (truthy (getJD (fieldsOf c) "output") = false →
      truthy (getJD (fieldsOf c) "text") = true →
        chatExtract data = some (getJD (fieldsOf c) "text")) ∧
    (truthy (getJD (fieldsOf c) "output") = false →
      truthy (getJD (fieldsOf c) "text") = false →
      truthy (getJD (fieldsOf c) "answer") = true →
        chatExtract data = some (getJD (fieldsOf c) "answer")) ∧
    (truthy (getJD (fieldsOf c) "output") = false →
      truthy (getJD (fieldsOf c) "text") = false →
      truthy (getJD (fieldsOf c) "answer") = false →
      truthy (getJD (fieldsOf c) "message") = true →
        chatExtract data = some (getJD (fieldsOf c) "message")) ∧
    (truthy (getJD (fieldsOf c) "output") = false →
      truthy (getJD (fieldsOf c) "text") = false →
      truthy (getJD (fieldsOf c) "answer") = false →
      truthy (getJD (fieldsOf c) "message") = false →
        chatExtract data = some (Json.str (Json.stringify c))) := by
  rw [chatExtract_eq_answer data c hc hnull]
  refine ⟨?_, ?_, ?_, ?_, ?_⟩ <;> intros <;> simp_all [chatAnswerOf, jsOr]

theorem c5_chat_answer_extraction_witness :
    chatContent c5ScenarioResponse = some c5ScenarioContent ∧
    c5ScenarioContent ≠ Json.null ∧
    chatExtract c5ScenarioResponse = some (Json.str "Answer text") :=
  ⟨rfl, fun h => Json.noConfusion h,
    (c5_chat_answer_extraction c5ScenarioResponse c5ScenarioContent rfl
      (fun h => Json.noConfusion h)).1 rfl⟩

theorem normalizeDoc_name (fs : List (String × Json)) (cn : Json)
    (hcn : customNameJ fs = some cn) :
    (normalizeDoc (Json.obj fs)).map (fun r => getField (fieldsOf r) "name")
      = some (some (jsOr cn (jsOr (getJD fs "displayName")
          (jsOr (getJD fs "name") (Json.str "Untitled Document"))))) := by
  have hdoc : docNameJ fs = some (jsOr cn (jsOr (getJD fs "displayName")
      (jsOr (getJD fs "name") (Json.str "Untitled Document")))) := by
    simp [docNameJ, hcn]
  simp only [normalizeDoc, fieldsOf, hdoc, Option.map_some']
  rw [getField_setKeyOpt_other _ _ _ _ (by decide),
    getField_setKeyOpt_other _ _ _ _ (by decide),
    getField_setKey_self]

/-- Claim C2: whenever the metadata lookup does not throw (a `null`
`customMetadata` entry reached by the `find` callback throws a TypeError
and no record is produced), the normalized document name is resolved in
order — the truthy custom name (`stringValue` of the first
`customMetadata` entry whose key equals `nombreFile`), else a truthy
`displayName`, else a truthy `name`, else the literal
`"Untitled Document"`; in particular, when that first `nombreFile` entry
carries a non-empty string `X`, the name is `X` regardless of
`displayName`. -/
theorem c2_document_name_resolution (fs : List (String × Json)) :
    (∀ cn, customNameJ fs = some cn → truthy cn = true →
      (normalizeDoc (Json.obj fs)).map (fun r => getField (fieldsOf r) "name")
        = some (some cn)) ∧
    (∀ cn, customNameJ fs = some cn → truthy cn = false →
      truthy (getJD fs "displayName") = true →
      (normalizeDoc (Json.obj fs)).map (fun r => getField (fieldsOf r) "name")
        = some (some (getJD fs "displayName"))) ∧
    (∀ cn, customNameJ fs = some cn → truthy cn = false →
      truthy (getJD fs "displayName") = false →
      truthy (getJD fs "name") = true →
      (normalizeDoc (Json.obj fs)).map (fun r => getField (fieldsOf r) "name")
        = some (some (getJD fs "name"))) ∧
    (∀ cn, customNameJ fs = some cn → truthy cn = false →
      truthy (getJD fs "displayName") = false →
      truthy (getJD fs "name") = false →
      (normalizeDoc (Json.obj fs)).map (fun r => getField (fieldsOf r) "name")
        = some (some (Json.str "Untitled Document"))) ∧
    (∀ (ms : List Json) (m : Json) (X : String),
      getField fs "customMetadata" = some (Json.arr ms) →
      findNombre ms = some (some m) →
      getField (fieldsOf m) "stringValue" = some (Json.str X) →
      X ≠ "" →
      (normalizeDoc (Json.obj fs)).map (fun r => getField (fieldsOf r) "name")
        = some (some (Json.str X))) := by
  refine ⟨?_, ?_, ?_, ?_, ?_⟩
  · intro cn hcn h1
    rw [normalizeDoc_name fs cn hcn]
    simp [jsOr, h1]
  · intro cn hcn h1 h2
    rw [normalizeDoc_name fs cn hcn]
    simp [jsOr, h1, h2]
  · intro cn hcn h1 h2 h3
    rw [normalizeDoc_name fs cn hcn]
    simp [jsOr, h1, h2, h3]
  · intro cn hcn h1 h2 h3
    rw [normalizeDoc_name fs cn hcn]
    simp [jsOr, h1, h2, h3]
  · intro ms m X hmeta hfind hsv hX
    have hcust : customNameJ fs = some (Json.str X) := by
      simp [customNameJ, hmeta, hfind, hsv, truthy, hX]
    rw [normalizeDoc_name fs (Json.str X) hcust]
    simp [jsOr, truthy, hX]

theorem c2_document_name_resolution_witness :
    getField c2WitnessDoc "customMetadata"
      = some (Json.arr
          [Json.obj [("key", Json.str "nombreFile"), ("stringValue", Json.str "Informe.pdf")]]) ∧
    findNombre [Json.obj [("key", Json.str "nombreFile"), ("stringValue", Json.str "Informe.pdf")]]
      = some (some (Json.obj
          [("key", Json.str "nombreFile"), ("stringValue", Json.str "Informe.pdf")])) ∧
    (normalizeDoc (Json.obj c2WitnessDoc)).map (fun r => getField (fieldsOf r) "name")
      = some (some (Json.str "Informe.pdf")) :=
  ⟨rfl, rfl,
    (c2_document_name_resolution c2WitnessDoc).2.2.2.2 _ _ "Informe.pdf" rfl rfl rfl
      (by decide)⟩

/-- Claim C8, counterexample: `createStore` with an unconfigured endpoint
does not refuse with a configuration error — it issues its POST anyway,
to the empty URL, and even reports success if the fetch succeeds. -/
theorem c8_create_store_no_validation_counterexample :
    ((createStoreOp emptyConfig "Marketing" (fun _ => FetchOutcome.response true 200 "OK" "")).2).map
        Request.url = [""] ∧
    (createStoreOp emptyConfig "Marketing" (fun _ => FetchOutcome.response true 200 "OK" "")).1
      = Except.ok () :=
  ⟨rfl, rfl⟩

/-- Claim C8, amended: only `listDocuments` and `chatWithStore` validate
their endpoint, refusing with a descriptive configuration error (distinct
from the network kind) before issuing any request when it is empty;
`createStore`, `deleteStore`, `uploadDocument` and `deleteDocument` issue
exactly one HTTP request regardless of endpoint configuration. -/
theorem c8_endpoint_validation (cfg : AppConfig) (fetch : Request → FetchOutcome)
    (parseJson : String → Option Json) (storeId question name fileName docId : String)
    (history : List (String × String)) :
    (cfg.listDocsUrl = "" →
      listDocumentsOp cfg storeId fetch parseJson
        = (Except.error (ApiError.configMissing "List Documents URL is not configured"), [])) ∧
    (cfg.chatDocUrl = "" →
      chatWithStoreOp cfg storeId question history fetch parseJson
        = (Except.error (ApiError.configMissing "Chat URL is not configured"), [])) ∧
    (createStoreOp cfg name fetch).2.length = 1 ∧
    (deleteStoreOp cfg storeId fetch).2.length = 1 ∧
    (uploadDocumentOp cfg storeId fileName fetch).2.length = 1 ∧
    (deleteDocumentOp cfg docId fetch).2.length = 1 := by
  refine ⟨fun h => by simp [listDocumentsOp, h],
    fun h => by simp [chatWithStoreOp, h], ?_, ?_, ?_, ?_⟩
  · simp only [createStoreOp]
    split
    · rfl
    · split <;> rfl
  · simp only [deleteStoreOp]
    split
    · rfl
    · split <;> rfl
  · simp only [uploadDocumentOp]
    split
    · rfl
    · split <;> rfl
  · simp only [deleteDocumentOp]
    split
    · rfl
    · split <;> rfl

theorem c8_endpoint_validation_witness :
    (emptyConfig.listDocsUrl = "" ∧
      listDocumentsOp emptyConfig "s" (fun _ => FetchOutcome.reject) (fun _ => none)
        = (Except.error (ApiError.configMissing "List Documents URL is not configured"), [])) ∧
    (emptyConfig.chatDocUrl = "" ∧
      chatWithStoreOp emptyConfig "s" "q" [] (fun _ => FetchOutcome.reject) (fun _ => none)
        = (Except.error (ApiError.configMissing "Chat URL is not configured"), [])) :=
  ⟨⟨rfl, (c8_endpoint_validation emptyConfig (fun _ => FetchOutcome.reject) (fun _ => none)
      "s" "q" "n" "f" "d" []).1 rfl⟩,
   ⟨rfl, (c8_endpoint_validation emptyConfig (fun _ => FetchOutcome.reject) (fun _ => none)
      "s" "q" "n" "f" "d" []).2.1 rfl⟩⟩

/-- Claim C10: after a confirmed successful remote deletion the store list
is an order-preserving sublist of the prior list containing exactly the
entries whose id differs from the deleted store's id (every occurrence of
a matching id removed); on remote failure the list is unchanged. -/
theorem c10_store_list_after_delete (s : DelState) (st : StoreRec)
    (hst : s.storeToDelete = some st) (hclick : canClickDelete s = true) :
    List.Sublist ((stepDel s (DelEvent.clickDelete true)).stores) s.stores ∧
    (∀ x, x ∈ (stepDel s (DelEvent.clickDelete true)).stores ↔ x ∈ s.stores ∧ x.id ≠ st.id) ∧
    (∀ x, List.count x ((stepDel s (DelEvent.clickDelete true)).stores)
        = if x.id = st.id then 0 else List.count x s.stores) ∧
    (stepDel s (DelEvent.clickDelete false)).stores = s.stores := by
  have hone : (stepDel s (DelEvent.clickDelete true)).stores
      = s.stores.filter (fun x => x.id ≠ st.id) := by
    simp [stepDel, hclick, hst]
  refine ⟨?_, ?_, ?_, ?_⟩
  · rw [hone]
    exact List.filter_sublist s.stores
  · intro x
    rw [hone]
    simp [List.mem_filter]
  · intro x
    rw [hone]
    by_cases hx : x.id = st.id
    · rw [if_pos hx]
      refine List.count_eq_zero.mpr ?_
      intro hmem
      have hfil := (List.mem_filter.mp hmem).2
      simp [hx] at hfil
    · rw [if_neg hx]
      exact List.count_filter (by simp [hx])
  · simp [stepDel, hclick, hst]

theorem c10_store_list_after_delete_witness :
    c10WitnessState.storeToDelete = some c3WitnessStore ∧
    canClickDelete c10WitnessState = true ∧
    (stepDel c10WitnessState (DelEvent.clickDelete false)).stores = c10WitnessState.stores :=
  ⟨rfl, by decide,
    (c10_store_list_after_delete c10WitnessState c3WitnessStore rfl (by decide)).2.2.2⟩

theorem delCountInv_init (stores : List StoreRec) : delCountInv (initDelState stores) :=
  ⟨Or.inl rfl, by intro h _; simp [initDelState] at h⟩

theorem delCountInv_step (s : DelState) (e : DelEvent) (h : delCountInv s) :
    delCountInv (stepDel s e) := by
  obtain ⟨h1, h2⟩ := h
  cases e with
  | beginOpen st =>
      refine ⟨Or.inl rfl, ?_⟩
      intro _ hc
      simp [stepDel] at hc
  | resolveCheck r =>
      cases r with
      | ok n => exact ⟨Or.inr (Or.inr ⟨n, rfl⟩), by intro _ _; simp [stepDel]⟩
      | error e => exact ⟨Or.inr (Or.inl rfl), by intro _ _; simp [stepDel]⟩
  | setText t => exact ⟨h1, h2⟩
  | clickDelete remoteOk =>
      by_cases hc : canClickDelete s = true
      · cases hsD : s.storeToDelete with
        | none =>
            simp only [stepDel, hc, if_true, hsD]
            exact ⟨h1, h2⟩
        | some st =>
            cases remoteOk with
            | false =>
                simp only [stepDel, hc, if_true, hsD, Bool.false_eq_true, if_false]
                exact ⟨h1, fun hsome hchk => h2 (by simp [hsD]) hchk⟩
            | true =>
                simp only [stepDel, hc, if_true, hsD, if_true]
                exact ⟨Or.inl rfl, by intro hsome _; simp at hsome⟩
      · simp only [stepDel, hc, if_false]
        exact ⟨h1, h2⟩
  | closeModal =>
      exact ⟨Or.inl rfl, by intro hsome _; simp [stepDel] at hsome⟩

theorem delCountInv_run (stores : List StoreRec) (evs : List DelEvent) :
    delCountInv (runDel stores evs) := by
  suffices hgen : ∀ (s : DelState), delCountInv s → delCountInv (evs.foldl stepDel s) from
    hgen _ (delCountInv_init stores)
  induction evs with
  | nil => intro s hs; exact hs
  | cons e rest ih => intro s hs; exact ih _ (delCountInv_step s e hs)

/-- Claim C3: in any run of the store-deletion flow, a step can issue a
delete-store request only from a state whose checked document count is
exactly zero — so when the pre-delete check returned a count greater than
zero (or failed, or is still pending), no delete-store request is
issued. -/
theorem c3_delete_only_when_count_zero (stores : List StoreRec) (evs : List DelEvent)
    (e : DelEvent)
    (h : (stepDel (runDel stores evs) e).deleteRequests ≠ (runDel stores evs).deleteRequests) :
    (runDel stores evs).docCount = some 0 := by
  set s := runDel stores evs with hs
  have hinv : delCountInv s := by rw [hs]; exact delCountInv_run stores evs
  cases e with
  | beginOpen st => exact absurd rfl h
  | resolveCheck r => exact absurd rfl h
  | setText t => exact absurd rfl h
  | closeModal => exact absurd rfl h
  | clickDelete remoteOk =>
      by_cases hc : canClickDelete s = true
      · cases hsD : s.storeToDelete with
        | none => simp [canClickDelete, hsD] at hc
        | some st =>
            simp only [canClickDelete, hsD, Bool.and_eq_true, Bool.not_eq_true'] at hc
            obtain ⟨⟨⟨⟨hchk, hneg1⟩, hneg2⟩, _htext⟩, _hdel⟩ := hc
            obtain ⟨h1, h2⟩ := hinv
            have hne : s.docCount ≠ none := h2 (by simp [hsD]) hchk
            rcases h1 with hno | hm1 | ⟨k, hk⟩
            · exact absurd hno hne
            · rw [hm1] at hneg1
              simp at hneg1
            · rw [hk] at hneg2
              have hneg2b : (decide ((k : Int) ≠ 0) && decide ((k : Int) > 0)) = false := hneg2
              have hk0 : k = 0 := by
                by_contra hne0
                have ht1 : ((k : Int) ≠ 0) := by exact_mod_cast hne0
                have ht2 : ((k : Int) > 0) := by
                  exact_mod_cast Nat.pos_of_ne_zero hne0
                rw [decide_eq_true ht1, decide_eq_true ht2] at hneg2b
                simp at hneg2b
              rw [hk, hk0]
              rfl
      · have hfix : stepDel s (DelEvent.clickDelete remoteOk) = s := by
          simp [stepDel, hc]
        rw [hfix] at h
        exact absurd rfl h

theorem c3_delete_only_when_count_zero_witness :
    (stepDel (runDel [c3WitnessStore] c3WitnessEvents) (DelEvent.clickDelete true)).deleteRequests
      ≠ (runDel [c3WitnessStore] c3WitnessEvents).deleteRequests ∧
    (runDel [c3WitnessStore] c3WitnessEvents).docCount = some 0 :=
  ⟨by decide,
    c3_delete_only_when_count_zero [c3WitnessStore] c3WitnessEvents (DelEvent.clickDelete true)
      (by decide)⟩
